import Mathlib

/-!
Verification of the onenote-mcp utilities: a shallow embedding, in Lean, of the
credential loaders, the title/date inclusion filter, the fetch-all pagination
loops, the single-record content retrievers, and the bulk export driver loop
found in `onenote-mcp.mjs`, `list-pages.js`, `get-page-content.js`,
`download-all-pages.js` and the unnamed `listSections` / `get-page` /
`search-pages` scripts.  External effects (Graph API calls, the filesystem,
`JSON.parse`, the JavaScript `Date` library) are modelled by passing their
observable outcomes as explicit inputs; every branch of the embedded control
flow is translated from the JavaScript source.
-/

namespace OneNoteMcp

/-! ## JavaScript string primitives used by the scripts -/

/-- Model of list-of-chars prefix test backing the `includes` model. -/
def startsWithList : List Char → List Char → Bool
  | [], _ => true
  | _ :: _, [] => false
  | a :: as, b :: bs => a == b && startsWithList as bs

/-- Model of substring containment on char lists. -/
def containsList (pat : List Char) : List Char → Bool
  | [] => startsWithList pat []
  | s :: rest => startsWithList pat (s :: rest) || containsList pat rest

/-- Model of JavaScript `String.prototype.includes` (substring test). -/
def jsIncludes (s pat : String) : Bool :=
  containsList pat.data s.data

/-- Model of JavaScript `String.prototype.toLowerCase` on ASCII text. -/
def toLowerStr (s : String) : String :=
  String.mk (s.data.map Char.toLower)

/-- Whitespace characters recognised by the `trim` model. -/
def isWsChar (c : Char) : Bool :=
  c == ' ' || c == '\t' || c == '\n' || c == '\r'

/-- Model of JavaScript `String.prototype.trim` (ASCII whitespace). -/
def trimStr (s : String) : String :=
  String.mk (((s.data.dropWhile isWsChar).reverse.dropWhile isWsChar).reverse)

/-- Model of `String(x).padStart(2, '0')`. -/
def padStart2 (s : String) : String :=
  String.mk (List.replicate (2 - s.data.length) '0' ++ s.data)

/-- JavaScript template interpolation of a possibly-`undefined` string. -/
def jsStr : Option String → String
  | some s => s
  | none => "undefined"

/-! ## Dates

The scripts parse timestamps with the external `Date` library and use three of
its observations: the epoch-milliseconds value (`Date` comparison compares
`valueOf()`), the local calendar fields `getFullYear` / `getMonth` / `getDate`,
and `toISOString()`.  A parsed date is embedded as those observations. -/

/-- Observable results of parsing a timestamp with the JavaScript `Date`
library: epoch milliseconds (used by `<` comparisons), the calendar fields
used by `formatDate`, and the `toISOString()` rendering used in skip reasons. -/
structure JsDate where
  epochMillis : Int
  year : Int
  monthIndex : Nat
  day : Nat
  iso : String
deriving DecidableEq, Repr

/-- Epoch milliseconds of `new Date('2022-01-01')`, i.e.
2022-01-01T00:00:00Z — the hardcoded cutoff in every date filter. -/
def cutoffEpochMillis : Int := 1640995200000

/-- `formatDate` from `download-all-pages.js`: renders a parsed date as
`YYYYMMDD` (month is `getMonth() + 1`, month and day padded to two digits). -/
def formatDate (d : JsDate) : String :=
  toString d.year ++ padStart2 (toString (d.monthIndex + 1)) ++ padStart2 (toString d.day)

/-- `formatDate` applied to an absent timestamp: `new Date(undefined)` has NaN
fields, so the template renders `NaNNaNNaN`. -/
def formatDateOpt : Option JsDate → String
  | some d => formatDate d
  | none => "NaNNaNNaN"

/-! ## Page records and the inclusion filter -/

/-- A page metadata record as consumed by the filters: the `title` and
`lastModifiedDateTime` fields, each possibly absent. -/
structure Page where
  title : Option String := none
  lastModifiedDateTime : Option JsDate := none
deriving DecidableEq, Repr

/-- The title-keyword condition common to every filter variant:
`(page.title || '').toLowerCase()` contains `'private'` or `'(old)'`. -/
def titleKeywordMatch (title : Option String) : Bool :=
  let lower := toLowerStr (title.getD "")
  jsIncludes lower "private" || jsIncludes lower "(old)"

/-- Result of `shouldSkipPage` in `onenote-mcp.mjs`: a skip flag plus the
reason field present exactly on the skip branches. -/
structure SkipCheck where
  skip : Bool
  reason : Option String := none
deriving DecidableEq, Repr

/-- `shouldSkipPage` from `onenote-mcp.mjs` (lines 404-422): title-keyword
exclusion first, then the 2022-01-01 modification-date cutoff. -/
def shouldSkipPage (page : Page) : SkipCheck :=
  if titleKeywordMatch page.title then
    { skip := true
      reason := some ("Title contains excluded keyword: \"" ++ jsStr page.title ++ "\"") }
  else
    match page.lastModifiedDateTime with
    | some d =>
      if d.epochMillis < cutoffEpochMillis then
        { skip := true
          reason := some ("Last modified date (" ++ d.iso ++ ") is older than 2022/1/1") }
      else
        { skip := false }
    | none => { skip := false }

/-- `shouldSkipPage` from `get-page-content.js` and the unnamed `get-page`
script: same rules, returning only a boolean (reasons go to the console). -/
def shouldSkipPageScript (page : Page) : Bool :=
  if titleKeywordMatch page.title then
    true
  else
    match page.lastModifiedDateTime with
    | some d => decide (d.epochMillis < cutoffEpochMillis)
    | none => false

/-- `shouldSkipPageByTitle` from `download-all-pages.js` (lines 52-55):
title-only keyword filter used by the bulk driver before any network call. -/
def shouldSkipPageByTitle (title : String) : Bool :=
  let lowerTitle := toLowerStr title
  jsIncludes lowerTitle "(old)" || jsIncludes lowerTitle "private"

/-- `shouldSkipByDate` from `download-all-pages.js` (lines 58-65): skip when a
last-modified timestamp is present and strictly earlier than the cutoff. -/
def shouldSkipByDate (page : Page) : Bool :=
  match page.lastModifiedDateTime with
  | some d => decide (d.epochMillis < cutoffEpochMillis)
  | none => false

/-- Fixture: the parse observations of `new Date('2021-06-01T00:00:00.000Z')`. -/
def date20210601 : JsDate :=
  ⟨1622505600000, 2021, 5, 1, "2021-06-01T00:00:00.000Z"⟩

/-- Fixture: the parse observations of `new Date('2022-06-01T00:00:00.000Z')`. -/
def date20220601 : JsDate :=
  ⟨1654041600000, 2022, 5, 1, "2022-06-01T00:00:00.000Z"⟩

/-- Fixture: the parse observations of `new Date('2025-06-15T10:00:00.000Z')`. -/
def date20250615 : JsDate :=
  ⟨1749981600000, 2025, 5, 15, "2025-06-15T10:00:00.000Z"⟩

/-- `sanitizeFilename` from `download-all-pages.js` (lines 77-79): replace the
characters `<>:"/\|?*` with underscores. -/
def sanitizeFilename (filename : String) : String :=
  String.mk (filename.data.map fun c =>
    if ['<', '>', ':', '"', '/', '\\', '|', '?', '*'].contains c then '_' else c)

/-! ## Pagination

A Graph collection response is `{ value: [...], '@odata.nextLink': url? }`;
the scripts guard `value` with `response.value || []`.  A fetch-all run is
driven by the initial response plus, for each continuation fetch the loop
issues, that fetch's outcome (a response, or a thrown error). -/

/-- A wire-level collection response: the `value` array (possibly absent) and
the optional `@odata.nextLink` continuation URL. -/
structure PageResponse (α : Type) where
  value : Option (List α)
  nextLink : Option String
deriving DecidableEq, Repr

/-- `response.value || []`. -/
def respValue {α : Type} (r : PageResponse α) : List α :=
  r.value.getD []

/-- The fetch-all accumulation loop of `onenote-mcp.mjs` `listPages`
(lines 373-377) and `searchPages` (lines 769-773), and of the first
`list-pages.js` variant (lines 109-115): while the current response carries a
nextLink, fetch it and concatenate `response.value || []`.  These loops have
no try/catch, so a failed continuation fetch propagates as an error (the
surrounding handler then fails the whole operation).  The third argument
supplies the outcome of each successive continuation fetch; exhausting it
while a nextLink is still pending is a model artifact that cannot occur on
the well-formed chains quantified over below. -/
def fetchAllMcp {α : Type} : List α → PageResponse α →
    List (Except String (PageResponse α)) → Except String (List α)
  | acc, cur, [] =>
    match cur.nextLink with
    | none => Except.ok acc
    | some _ => Except.error "model: fetch outcomes exhausted"
  | acc, cur, f :: rest =>
    match cur.nextLink with
    | none => Except.ok acc
    | some _ =>
      match f with
      | Except.error e => Except.error e
      | Except.ok r => fetchAllMcp (acc ++ respValue r) r rest

/-- The batch fetch-all loop of the second `list-pages.js` variant
(lines 211-226, 265-280, 343-358): identical accumulation, but each
continuation fetch sits in a try/catch — on error the loop logs, breaks, and
continues with the pages accumulated so far. -/
def fetchAllBatch {α : Type} : List α → PageResponse α →
    List (Except String (PageResponse α)) → List α
  | acc, _, [] => acc
  | acc, cur, f :: rest =>
    match cur.nextLink with
    | none => acc
    | some _ =>
      match f with
      | Except.error _ => acc
      | Except.ok r => fetchAllBatch (acc ++ respValue r) r rest

/-- Entry point of the `onenote-mcp.mjs` `listPages` fetch-all path: seed the
accumulator with `[...(response.value || [])]` from the initial response. -/
def listPagesFetchAll {α : Type} (init : PageResponse α)
    (fetches : List (Except String (PageResponse α))) : Except String (List α) :=
  fetchAllMcp (respValue init) init fetches

/-- Entry point of the `list-pages.js` batch fetch-all path. -/
def listPagesBatchAll {α : Type} (init : PageResponse α)
    (fetches : List (Except String (PageResponse α))) : List α :=
  fetchAllBatch (respValue init) init fetches

/-- The initial response of a simulated chain of server pages `p :: rest`:
carries a continuation token exactly when further pages follow. -/
def chainInit {α : Type} (p : List α) (rest : List (List α)) : PageResponse α :=
  { value := some p, nextLink := if rest.isEmpty then none else some "next" }

/-- The successful continuation-fetch outcomes of a simulated chain: one `ok`
response per remaining server page, the last one carrying no token. -/
def chainFetches {α : Type} : List (List α) → List (Except String (PageResponse α))
  | [] => []
  | p :: rs => Except.ok (chainInit p rs) :: chainFetches rs

/-! ## Credential loaders

Every script reads `.access-token.txt`, tries `JSON.parse` first and falls
back to the raw contents.  `JSON.parse` is external; its outcome is embedded
as either `threw` or the `.token` / `.access_token` field lookups on the
parsed value (`none` models an absent/`undefined` field, which is exactly
what a parsed value that is not an object, or an object missing the key,
yields). -/

/-- Outcome of `JSON.parse` on the credential file, projected to the two
field lookups the loaders perform. -/
inductive ParseOutcome where
  | threw
  | parsed (token accessTok : Option String)
deriving DecidableEq, Repr

/-- What a loader reports: a usable bearer token, or credential-missing. -/
inductive LoadResult where
  | missing
  | loaded (t : String)
deriving DecidableEq, Repr

/-- JavaScript truthiness of a possibly-`undefined` string. -/
def optTruthy : Option String → Bool
  | some s => s != ""
  | none => false

/-- `a || b` on possibly-`undefined` strings. -/
def jsOr (a b : Option String) : Option String :=
  if optTruthy a then a else b

/-- The token loader of `list-pages.js` (lines 30-50), shared verbatim by
`get-page-content.js`, `search-pages.js`, `download-all-pages.js` and
`onenote-mcp.mjs` module init: missing if the file does not exist; otherwise
`JSON.parse` then `.token`, falling back to the raw (untrimmed) contents on a
parse error; missing if the resulting value is falsy. -/
def listPagesTokenLoad (fileExists : Bool) (content : String)
    (parse : ParseOutcome) : LoadResult :=
  if !fileExists then LoadResult.missing
  else
    let accessToken : Option String :=
      match parse with
      | ParseOutcome.threw => some content
      | ParseOutcome.parsed tok _ => tok
    if optTruthy accessToken then LoadResult.loaded (accessToken.getD "")
    else LoadResult.missing

/-- The token loader of the unnamed `listSections` script (lines 16-36): the
raw contents are trimmed before parsing, the structured form tolerates
`access_token` as an alternate field (`parsedToken.token ||
parsedToken.access_token || ''`), and the extracted field is trimmed. -/
def listSectionsTokenLoad (fileExists : Bool) (content : String)
    (parse : ParseOutcome) : LoadResult :=
  if !fileExists then LoadResult.missing
  else
    let tokenData := trimStr content
    let accessToken : String :=
      match parse with
      | ParseOutcome.threw => tokenData
      | ParseOutcome.parsed tok atok => trimStr ((jsOr tok atok).getD "")
    if accessToken != "" then LoadResult.loaded accessToken
    else LoadResult.missing

/-- The token (re)load inside `ensureGraphClient` of `onenote-mcp.mjs`
(lines 74-106): the module-level `accessToken` (possibly set earlier from the
environment) is overwritten by the file contents when the file exists —
structured `.token` first, raw fallback — and the function throws
"Access token not found" when the result is falsy. -/
def ensureGraphTokenLoad (prior : Option String) (fileExists : Bool)
    (content : String) (parse : ParseOutcome) : LoadResult :=
  let accessToken : Option String :=
    if fileExists then
      match parse with
      | ParseOutcome.threw => some content
      | ParseOutcome.parsed tok _ => tok
    else prior
  if optTruthy accessToken then LoadResult.loaded (accessToken.getD "")
  else LoadResult.missing

/-! ## Single-record retrieval

The retrievers are embedded as functions that, besides their result, emit the
trace of externally observable actions: the metadata request, the content
request, and the durable file write.  Network outcomes are inputs. -/

/-- Externally observable actions of a single-record retrieval. -/
inductive DlEvent where
  | metaRequest
  | contentRequest
  | fileWrite (path : String)
deriving DecidableEq, Repr

/-- The result object of `downloadPage` in `download-all-pages.js`. -/
structure DlResult where
  success : Bool
  skipped : Bool := false
  reason : Option String := none
  filename : Option String := none
  error : Option String := none
deriving DecidableEq, Repr

/-- The network outcomes of one `downloadPage` attempt: the metadata fetch
and the content fetch (whose error case covers both a thrown fetch error and
a non-2xx status, which the code turns into a throw). -/
structure Attempt where
  meta : Except String Page
  content : Except String String
deriving Repr

/-- One attempt of `downloadPage` from `download-all-pages.js`
(lines 117-181): fast-mode recent-file short-circuit, metadata fetch, date
skip, exact-expected-filename existence skip, content fetch, file write.
`recentFileFound` is the outcome of the clock-dependent
`hasRecentFileByTitle` directory scan; `fsFiles` is the output-directory
listing consulted by `fs.existsSync`.  Returns either the result object or
the caught error, with the emitted event trace. -/
def downloadPageOnce (pageTitle : String) (fastMode recentFileFound : Bool)
    (fsFiles : List String) (a : Attempt) : (Sum DlResult String) × List DlEvent :=
  if fastMode && recentFileFound then
    (Sum.inl { success := true, skipped := true
               reason := some "fast mode - recent file exists" }, [])
  else
    match a.meta with
    | Except.error e => (Sum.inr e, [DlEvent.metaRequest])
    | Except.ok page =>
      if shouldSkipByDate page then
        (Sum.inl { success := true, skipped := true, reason := some "old date" },
         [DlEvent.metaRequest])
      else
        let filename :=
          sanitizeFilename pageTitle ++ "--" ++ formatDateOpt page.lastModifiedDateTime ++ ".html"
        if fsFiles.contains filename then
          (Sum.inl { success := true, skipped := true, reason := some "already exists" },
           [DlEvent.metaRequest])
        else
          match a.content with
          | Except.error e => (Sum.inr e, [DlEvent.metaRequest, DlEvent.contentRequest])
          | Except.ok _ =>
            (Sum.inl { success := true, skipped := false, filename := some filename },
             [DlEvent.metaRequest, DlEvent.contentRequest, DlEvent.fileWrite filename])

/-- `downloadPage` with its single retry (lines 182-190): a caught error on
the first attempt re-runs the whole function once; a second caught error
yields the failure result. -/
def downloadPage (pageTitle : String) (fastMode recentFileFound : Bool)
    (fsFiles : List String) (a1 a2 : Attempt) : DlResult × List DlEvent :=
  match downloadPageOnce pageTitle fastMode recentFileFound fsFiles a1 with
  | (Sum.inl r, ev) => (r, ev)
  | (Sum.inr _, ev1) =>
    match downloadPageOnce pageTitle fastMode recentFileFound fsFiles a2 with
    | (Sum.inl r, ev2) => (r, ev1 ++ ev2)
    | (Sum.inr e2, ev2) => ({ success := false, error := some e2 }, ev1 ++ ev2)

/-- The `downloadFile` tool handler of `onenote-mcp.mjs` (lines 581-655):
argument checks, metadata fetch, `shouldSkipPage` check, content fetch, file
write; every caught error is rethrown as "Failed to download file: ...". -/
def downloadFile (pageId filePath : String) (meta : Except String Page)
    (content : Except String String) : Except String String × List DlEvent :=
  if pageId = "" then
    (Except.error "Failed to download file: Page ID is required", [])
  else if filePath = "" then
    (Except.error "Failed to download file: File path is required", [])
  else
    match meta with
    | Except.error e => (Except.error ("Failed to download file: " ++ e), [DlEvent.metaRequest])
    | Except.ok page =>
      let skipCheck := shouldSkipPage page
      if skipCheck.skip then
        (Except.ok ("Page skipped: " ++ skipCheck.reason.getD ""), [DlEvent.metaRequest])
      else
        match content with
        | Except.error e =>
          (Except.error ("Failed to download file: " ++ e),
           [DlEvent.metaRequest, DlEvent.contentRequest])
        | Except.ok c =>
          (Except.ok ("Page \"" ++ jsStr page.title ++ "\" successfully downloaded to "
              ++ filePath ++ " (" ++ toString c.length ++ " characters)"),
           [DlEvent.metaRequest, DlEvent.contentRequest, DlEvent.fileWrite filePath])

/-- `safeFileName` computation of the standalone content scripts:
`title.replace(/[^a-z0-9]/gi, '_').toLowerCase()`. -/
def safeFileName (t : String) : String :=
  String.mk ((t.data.map fun c =>
    if c.isAlpha || c.isDigit then c else '_').map Char.toLower)

/-- Event trace of `getPageContent` in the unnamed `get-page` script
(lines 169-206) and `get-page-content.js`: metadata fetch, boolean skip
check, content fetch, then the file write (which needs `page.title`; an
absent title makes `title.replace` throw before any write — the error is
caught and logged). -/
def getPageContentScript (pageId : String) (meta : Except String Page)
    (content : Except String String) : List DlEvent :=
  match meta with
  | Except.error _ => [DlEvent.metaRequest]
  | Except.ok page =>
    if shouldSkipPageScript page then [DlEvent.metaRequest]
    else
      match content with
      | Except.error _ => [DlEvent.metaRequest, DlEvent.contentRequest]
      | Except.ok _ =>
        match page.title with
        | none => [DlEvent.metaRequest, DlEvent.contentRequest]
        | some t =>
          [DlEvent.metaRequest, DlEvent.contentRequest,
           DlEvent.fileWrite (safeFileName t ++ "_" ++ String.mk (pageId.data.take 8) ++ ".html")]

/-! ## Bulk export driver loop -/

/-- `MAX_CONSECUTIVE_FAILURES` from `download-all-pages.js`. -/
def MAX_CONSECUTIVE_FAILURES : Nat := 10

/-- Counters and failure log accumulated by `main` in
`download-all-pages.js` (lines 230-263). -/
structure RunTotals where
  attempted : Nat := 0
  totalSuccess : Nat := 0
  totalSkipped : Nat := 0
  totalFailed : Nat := 0
  failedPages : List (String × String × String) := []
deriving DecidableEq, Repr

/-- The download loop of `main`: each element pairs a manifest entry
`(title, pageId)` with the `downloadPage` result for it; a success resets the
consecutive-failure counter, a failure increments it and appends to
`failedPages`, and reaching `MAX_CONSECUTIVE_FAILURES` consecutive failures
breaks out before attempting any later entry. -/
def runLoopGo : List ((String × String) × DlResult) → Nat → RunTotals → RunTotals
  | [], _, acc => acc
  | (entry, r) :: rest, consecutiveFailures, acc =>
    let acc1 := { acc with attempted := acc.attempted + 1 }
    if r.success then
      let acc2 :=
        if r.skipped then { acc1 with totalSkipped := acc1.totalSkipped + 1 }
        else { acc1 with totalSuccess := acc1.totalSuccess + 1 }
      runLoopGo rest 0 acc2
    else
      let consec := consecutiveFailures + 1
      let acc2 := { acc1 with
        totalFailed := acc1.totalFailed + 1
        failedPages := acc1.failedPages ++ [(entry.1, entry.2, (r.error.getD "undefined"))] }
      if MAX_CONSECUTIVE_FAILURES ≤ consec then acc2
      else runLoopGo rest consec acc2

/-- The driver loop from the start: counter at zero, empty totals. -/
def runDownloadLoop (entries : List ((String × String) × DlResult)) : RunTotals :=
  runLoopGo entries 0 {}

/-- The failure-log lines written by `main` (lines 266-271):
`title -- pageId (Error: message)`. -/
def failureLogLines (t : RunTotals) : List String :=
  t.failedPages.map fun p => p.1 ++ " -- " ++ p.2.1 ++ " (Error: " ++ p.2.2 ++ ")"

/-- `main` writes the failure log exactly when `failedPages` is nonempty. -/
def failureLogEmitted (t : RunTotals) : Bool :=
  !t.failedPages.isEmpty

/-! ## Helper lemmas -/

theorem fetchAllMcp_no_link {α : Type} (acc : List α) (v : Option (List α))
    (fs : List (Except String (PageResponse α))) :
    fetchAllMcp acc { value := v, nextLink := none } fs = Except.ok acc := by
  cases fs <;> rfl

theorem fetchAllMcp_ok_step {α : Type} (acc : List α) (v : Option (List α)) (tok : String)
    (r : PageResponse α) (rest : List (Except String (PageResponse α))) :
    fetchAllMcp acc { value := v, nextLink := some tok } (Except.ok r :: rest) =
      fetchAllMcp (acc ++ respValue r) r rest := rfl

theorem fetchAllMcp_err_step {α : Type} (acc : List α) (v : Option (List α)) (tok e : String)
    (rest : List (Except String (PageResponse α))) :
    fetchAllMcp acc { value := v, nextLink := some tok } (Except.error e :: rest) =
      Except.error e := rfl

theorem fetchAllBatch_no_link {α : Type} (acc : List α) (v : Option (List α))
    (fs : List (Except String (PageResponse α))) :
    fetchAllBatch acc { value := v, nextLink := none } fs = acc := by
  cases fs <;> rfl

theorem fetchAllBatch_ok_step {α : Type} (acc : List α) (v : Option (List α)) (tok : String)
    (r : PageResponse α) (rest : List (Except String (PageResponse α))) :
    fetchAllBatch acc { value := v, nextLink := some tok } (Except.ok r :: rest) =
      fetchAllBatch (acc ++ respValue r) r rest := rfl

theorem fetchAllBatch_err_step {α : Type} (acc : List α) (v : Option (List α)) (tok e : String)
    (rest : List (Except String (PageResponse α))) :
    fetchAllBatch acc { value := v, nextLink := some tok } (Except.error e :: rest) = acc := rfl

/-- On a well-formed chain of successful pages, the no-catch loop accumulates
the concatenation of all remaining pages. -/
theorem fetchAllMcp_chain {α : Type} :
    ∀ (rest : List (List α)) (acc p : List α),
      fetchAllMcp acc (chainInit p rest) (chainFetches rest) =
        Except.ok (acc ++ rest.flatten)
  | [], acc, p => by
    simp [chainInit, chainFetches, fetchAllMcp_no_link]
  | q :: rs, acc, p => by
    have h1 : chainInit p (q :: rs) =
        ({ value := some p, nextLink := some "next" } : PageResponse α) := by
      simp [chainInit]
    rw [h1, chainFetches, fetchAllMcp_ok_step, fetchAllMcp_chain rs]
    simp [respValue, chainInit]

/-- Same accumulation for the try/catch batch loop. -/
theorem fetchAllBatch_chain {α : Type} :
    ∀ (rest : List (List α)) (acc p : List α),
      fetchAllBatch acc (chainInit p rest) (chainFetches rest) = acc ++ rest.flatten
  | [], acc, p => by
    simp [chainInit, chainFetches, fetchAllBatch_no_link]
  | q :: rs, acc, p => by
    have h1 : chainInit p (q :: rs) =
        ({ value := some p, nextLink := some "next" } : PageResponse α) := by
      simp [chainInit]
    rw [h1, chainFetches, fetchAllBatch_ok_step, fetchAllBatch_chain rs]
    simp [respValue, chainInit]

/-- After a run of successful continuation fetches followed by a failing one,
the batch loop returns the records accumulated so far while the no-catch loop
propagates the error. -/
theorem fetchAll_error_tail {α : Type} :
    ∀ (ps : List (List α)) (acc : List α) (v : Option (List α)) (tok e : String)
      (rest : List (Except String (PageResponse α))),
      fetchAllBatch acc { value := v, nextLink := some tok }
          ((ps.map fun p =>
            Except.ok ({ value := some p, nextLink := some tok } : PageResponse α))
            ++ Except.error e :: rest) = acc ++ ps.flatten ∧
      fetchAllMcp acc { value := v, nextLink := some tok }
          ((ps.map fun p =>
            Except.ok ({ value := some p, nextLink := some tok } : PageResponse α))
            ++ Except.error e :: rest) = Except.error e
  | [], acc, v, tok, e, rest => by
    simp [fetchAllBatch_err_step, fetchAllMcp_err_step]
  | q :: qs, acc, v, tok, e, rest => by
    have ih := fetchAll_error_tail qs (acc ++ q) (some q) tok e rest
    simp only [List.map_cons, List.cons_append, fetchAllBatch_ok_step, fetchAllMcp_ok_step,
      respValue, Option.getD_some] at ih ⊢
    rw [ih.1, ih.2]
    simp

/-! ## Claim theorems -/

/-- C1, counterexample: in the `onenote-mcp.mjs` `listPages` fetch-all run
whose initial response holds records `[1, 2]` with a continuation link, a
failing continuation fetch makes the whole operation fail with that error —
the accumulated records are discarded, not returned (the handler's catch
rethrows, so the tool call errors).  This refutes the claim that per-page
fetch failures during multi-page accumulation are never fatal.  By contrast
the `list-pages.js` batch loop on the same input returns the accumulated
`[1, 2]`. -/
theorem C1_counterexample :
    listPagesFetchAll ({ value := some [1, 2], nextLink := some "next" } : PageResponse Nat)
        [Except.error "network error"] = Except.error "network error" ∧
    listPagesBatchAll ({ value := some [1, 2], nextLink := some "next" } : PageResponse Nat)
        [Except.error "network error"] = [1, 2] :=
  ⟨rfl, rfl⟩

/-- C1, amended: only the batch fetch-all loops of `list-pages.js` implement
the partial-result policy — after any run of successful continuation pages, a
failing fetch stops pagination and the loop continues with the records
accumulated so far.  The fetch-all loops of `onenote-mcp.mjs` `listPages` and
`searchPages` (and the first `list-pages.js` variant) have no try/catch:
there the same failing fetch propagates as an error and the whole operation
fails, discarding the accumulation. -/
theorem C1_batch_keeps_accumulated {α : Type} (p0 : List α) (ps : List (List α))
    (tok e : String) (rest : List (Except String (PageResponse α))) :
    listPagesBatchAll { value := some p0, nextLink := some tok }
        ((ps.map fun p =>
          Except.ok ({ value := some p, nextLink := some tok } : PageResponse α))
          ++ Except.error e :: rest) = p0 ++ ps.flatten ∧
    listPagesFetchAll { value := some p0, nextLink := some tok }
        ((ps.map fun p =>
          Except.ok ({ value := some p, nextLink := some tok } : PageResponse α))
          ++ Except.error e :: rest) = Except.error e := by
  have h := fetchAll_error_tail ps p0 (some p0) tok e rest
  exact ⟨h.1, h.2⟩

/-- C2: on a chain of server pages `p0 :: rest` where every page except the
last carries a continuation token and every fetch succeeds, both fetch-all
loops accumulate exactly the concatenation `p0 ++ ... ++ pn` in server order,
whose length is the sum of the page lengths — no reordering, no
deduplication. -/
theorem C2_fetchAll_concatenation {α : Type} (p0 : List α) (rest : List (List α)) :
    listPagesFetchAll (chainInit p0 rest) (chainFetches rest) =
        Except.ok ((p0 :: rest).flatten) ∧
    listPagesBatchAll (chainInit p0 rest) (chainFetches rest) = (p0 :: rest).flatten ∧
    ((p0 :: rest).flatten).length = ((p0 :: rest).map List.length).sum := by
  refine ⟨?_, ?_, List.length_flatten _⟩
  · rw [listPagesFetchAll, fetchAllMcp_chain rest]
    simp [respValue, chainInit]
  · rw [listPagesBatchAll, fetchAllBatch_chain rest]
    simp [respValue, chainInit]

/-- C5, counterexample: the title "PRIVATE STUFF" matches the keyword
"private" case-insensitively and is excluded, but its reason is the fixed
format quoting only the title — neither exclusion-set keyword ("private",
"(old)") occurs in the reason, so the reason does not identify which keyword
matched (the same format serves both keywords). -/
theorem C5_counterexample :
    shouldSkipPage { title := some "PRIVATE STUFF" } =
      { skip := true
        reason := some "Title contains excluded keyword: \"PRIVATE STUFF\"" } ∧
    jsIncludes "Title contains excluded keyword: \"PRIVATE STUFF\"" "private" = false ∧
    jsIncludes "Title contains excluded keyword: \"PRIVATE STUFF\"" "(old)" = false := by
  refine ⟨by decide, by decide, by decide⟩

/-- C5, amended: every record whose title contains "private" or "(old)"
case-insensitively is excluded, with the reason
`Title contains excluded keyword: "<title>"` — it quotes the original title
but does not name which of the two keywords matched; the format is identical
for both keywords. -/
theorem C5_keyword_exclusion (t : String) (d : Option JsDate)
    (h : titleKeywordMatch (some t) = true) :
    shouldSkipPage { title := some t, lastModifiedDateTime := d } =
      { skip := true
        reason := some ("Title contains excluded keyword: \"" ++ t ++ "\"") } := by
  simp [shouldSkipPage, h, jsStr]

/-- C5, witness: the spec's own example title "Private Notes" is excluded
with the title-quoting reason. -/
theorem C5_keyword_exclusion_witness :
    shouldSkipPage { title := some "Private Notes", lastModifiedDateTime := none } =
      { skip := true
        reason := some "Title contains excluded keyword: \"Private Notes\"" } :=
  C5_keyword_exclusion "Private Notes" none (by decide)

/-- C6: a record whose parsed last-modified timestamp is strictly earlier
than the 2022-01-01 cutoff instant is excluded (whatever its title); when the
title-keyword rule does not also fire, the reason cites the parsed timestamp
(`toISOString`) and the cutoff; a timestamp at or after the cutoff leaves the
record excluded only by the title rule; an absent timestamp never triggers
the date rule. -/
theorem C6_date_cutoff (t : Option String) (d : JsDate) :
    (d.epochMillis < cutoffEpochMillis →
      (shouldSkipPage { title := t, lastModifiedDateTime := some d }).skip = true) ∧
    (titleKeywordMatch t = false → d.epochMillis < cutoffEpochMillis →
      (shouldSkipPage { title := t, lastModifiedDateTime := some d }).reason =
        some ("Last modified date (" ++ d.iso ++ ") is older than 2022/1/1")) ∧
    (cutoffEpochMillis ≤ d.epochMillis →
      (shouldSkipPage { title := t, lastModifiedDateTime := some d }).skip =
        titleKeywordMatch t) ∧
    ((shouldSkipPage { title := t, lastModifiedDateTime := none }).skip =
        titleKeywordMatch t) := by
  refine ⟨?_, ?_, ?_, ?_⟩
  · intro hlt
    by_cases ht : titleKeywordMatch t = true
    · simp [shouldSkipPage, ht]
    · simp [shouldSkipPage, ht, hlt]
  · intro ht hlt
    simp [shouldSkipPage, ht, hlt]
  · intro hge
    have hnlt : ¬(d.epochMillis < cutoffEpochMillis) := by omega
    by_cases ht : titleKeywordMatch t = true
    · simp [shouldSkipPage, ht]
    · rw [Bool.not_eq_true] at ht
      simp [shouldSkipPage, ht, hnlt]
  · by_cases ht : titleKeywordMatch t = true
    · simp [shouldSkipPage, ht]
    · rw [Bool.not_eq_true] at ht
      simp [shouldSkipPage, ht]

/-- C6, witness: a 2021-06-01 record is excluded with the timestamp-citing
reason; a 2022-06-01 record with the same neutral title is not excluded; an
undated record is not excluded. -/
theorem C6_date_cutoff_witness :
    (shouldSkipPage { title := some "meeting notes", lastModifiedDateTime := some date20210601 }).skip = true ∧
    (shouldSkipPage { title := some "meeting notes", lastModifiedDateTime := some date20210601 }).reason =
      some "Last modified date (2021-06-01T00:00:00.000Z) is older than 2022/1/1" ∧
    (shouldSkipPage { title := some "meeting notes", lastModifiedDateTime := some date20220601 }).skip = false ∧
    (shouldSkipPage { title := some "meeting notes", lastModifiedDateTime := none }).skip = false := by
  refine ⟨(C6_date_cutoff (some "meeting notes") date20210601).1 (by decide),
    (C6_date_cutoff (some "meeting notes") date20210601).2.1 (by decide) (by decide),
    ?_, ?_⟩
  · rw [(C6_date_cutoff (some "meeting notes") date20220601).2.2.1 (by decide)]
    decide
  · rw [(C6_date_cutoff (some "meeting notes") date20220601).2.2.2]
    decide

/-- C10: a record with an absent title is filtered exactly like one with the
empty-string title — the filter is total and such a record is never excluded
by the title-keyword rule: its skip decision coincides with the date-only
rule, in both the reason-producing and the boolean filter variants. -/
theorem C10_absent_title (d : Option JsDate) :
    shouldSkipPage { title := none, lastModifiedDateTime := d } =
        shouldSkipPage { title := some "", lastModifiedDateTime := d } ∧
    (shouldSkipPage { title := none, lastModifiedDateTime := d }).skip =
        shouldSkipByDate { title := none, lastModifiedDateTime := d } ∧
    shouldSkipPageScript { title := none, lastModifiedDateTime := d } =
        shouldSkipByDate { title := none, lastModifiedDateTime := d } := by
  have h1 : titleKeywordMatch none = false := by decide
  have h2 : titleKeywordMatch (some "") = false := by decide
  refine ⟨?_, ?_, ?_⟩
  all_goals simp only [shouldSkipPage, shouldSkipPageScript, shouldSkipByDate, h1, h2]
  all_goals cases d
  all_goals simp
  all_goals split
  all_goals simp_all

/-- C3, counterexample: a record whose exact expected output filename
(`Note--20250615.html`) already exists in the output directory IS skipped
with reason "already exists", but its event trace is `[metaRequest]` — a
metadata request is issued before the existence check, because the expected
filename is built from the last-modified date that only the metadata fetch
provides.  This refutes "skips that record without issuing any metadata or
content request". -/
theorem C3_counterexample :
    downloadPage "Note" false false ["Note--20250615.html"]
        { meta := Except.ok { title := some "Note", lastModifiedDateTime := some date20250615 }, content := Except.ok "body" }
        { meta := Except.error "unused", content := Except.error "unused" } =
      ({ success := true, skipped := true, reason := some "already exists" },
       [DlEvent.metaRequest]) ∧
    DlEvent.metaRequest ∈
      (downloadPage "Note" false false ["Note--20250615.html"]
        { meta := Except.ok { title := some "Note", lastModifiedDateTime := some date20250615 }, content := Except.ok "body" }
        { meta := Except.error "unused", content := Except.error "unused" }).2 := by
  refine ⟨by decide, by decide⟩

/-- C3, amended: when the record's exact expected filename (sanitized title
plus formatted last-modified date) already exists in the output directory,
a normal-mode (non-fast) re-run of the driver skips the record — the result
is `skipped: 'already exists'` and the trace shows no content request and no
file write — but only after issuing the metadata request that supplies the
last-modified date the expected filename depends on. -/
theorem C3_idempotent_skip (title : String) (pt : Option String) (d : JsDate)
    (rf : Bool) (files : List String) (c : Except String String) (a2 : Attempt)
    (hd : cutoffEpochMillis ≤ d.epochMillis)
    (hf : (sanitizeFilename title ++ "--" ++ formatDate d ++ ".html") ∈ files) :
    downloadPage title false rf files
        { meta := Except.ok { title := pt, lastModifiedDateTime := some d }, content := c } a2 =
      ({ success := true, skipped := true, reason := some "already exists" },
       [DlEvent.metaRequest]) := by
  have hnlt : ¬(d.epochMillis < cutoffEpochMillis) := by omega
  simp [downloadPage, downloadPageOnce, shouldSkipByDate, hnlt, formatDateOpt, hf]

/-- C3, witness: the amended theorem at the counterexample's concrete
record. -/
theorem C3_idempotent_skip_witness :
    downloadPage "Note" false false ["Note--20250615.html"]
        { meta := Except.ok { title := some "Note", lastModifiedDateTime := some date20250615 }, content := Except.ok "body" }
        { meta := Except.error "unused", content := Except.error "unused" } =
      ({ success := true, skipped := true, reason := some "already exists" },
       [DlEvent.metaRequest]) :=
  C3_idempotent_skip "Note" (some "Note") date20250615 false ["Note--20250615.html"]
    (Except.ok "body") { meta := Except.error "unused", content := Except.error "unused" }
    (by decide) (by decide)

/-- C7: an excluded record never causes a content request or a durable
write — in all three single-record retrievers the exclusion check on the
fetched metadata precedes the content fetch and the disk write, so the
emitted trace is exactly `[metaRequest]`: the `downloadFile` tool handler
returns the skip message, the bulk `downloadPage` returns the date-skip
result, and the standalone `getPageContent` script stops after the check. -/
theorem C7_excluded_never_written (pid fp pt : String) (p1 p2 p3 : Page)
    (c1 c2 c3 : Except String String) (a2 : Attempt) (rf : Bool) (files : List String)
    (hpid : ¬(pid = "")) (hfp : ¬(fp = ""))
    (h1 : (shouldSkipPage p1).skip = true)
    (h2 : shouldSkipByDate p2 = true)
    (h3 : shouldSkipPageScript p3 = true) :
    downloadFile pid fp (Except.ok p1) c1 =
      (Except.ok ("Page skipped: " ++ (shouldSkipPage p1).reason.getD ""),
       [DlEvent.metaRequest]) ∧
    downloadPage pt false rf files { meta := Except.ok p2, content := c2 } a2 =
      ({ success := true, skipped := true, reason := some "old date" },
       [DlEvent.metaRequest]) ∧
    getPageContentScript pid (Except.ok p3) c3 = [DlEvent.metaRequest] := by
  refine ⟨?_, ?_, ?_⟩
  · simp [downloadFile, hpid, hfp, h1]
  · simp [downloadPage, downloadPageOnce, h2]
  · simp [getPageContentScript, h3]

/-- C7, witness: a record last modified 2021-06-01 (excluded by the date
rule, and by every filter variant) produces only the metadata request in all
three retrievers. -/
theorem C7_excluded_never_written_witness :
    downloadFile "pageid-1" "/tmp/out.html"
        (Except.ok { title := some "meeting notes", lastModifiedDateTime := some date20210601 })
        (Except.ok "body") =
      (Except.ok "Page skipped: Last modified date (2021-06-01T00:00:00.000Z) is older than 2022/1/1",
       [DlEvent.metaRequest]) ∧
    downloadPage "meeting notes" false false []
        { meta := Except.ok { title := some "meeting notes", lastModifiedDateTime := some date20210601 }, content := Except.ok "body" }
        { meta := Except.error "unused", content := Except.error "unused" } =
      ({ success := true, skipped := true, reason := some "old date" },
       [DlEvent.metaRequest]) ∧
    getPageContentScript "pageid-1"
        (Except.ok { title := some "meeting notes", lastModifiedDateTime := some date20210601 })
        (Except.ok "body") = [DlEvent.metaRequest] := by
  have h := C7_excluded_never_written "pageid-1" "/tmp/out.html" "meeting notes"
    { title := some "meeting notes", lastModifiedDateTime := some date20210601 }
    { title := some "meeting notes", lastModifiedDateTime := some date20210601 }
    { title := some "meeting notes", lastModifiedDateTime := some date20210601 }
    (Except.ok "body") (Except.ok "body") (Except.ok "body")
    { meta := Except.error "unused", content := Except.error "unused" } false []
    (by decide) (by decide) (by decide) (by decide) (by decide)
  refine ⟨?_, h.2.1, h.2.2⟩
  rw [h.1]
  rfl

/-- C4, counterexample: a credential file holding the bare non-JSON string
"abc \n" (so `JSON.parse` throws) makes the `list-pages.js`-family loader
return the raw contents UNTRIMMED — not "abc" as the claim's "Y trimmed"
requires — and a whitespace-only file " " is returned as a (whitespace)
token instead of being reported missing. -/
theorem C4_counterexample :
    listPagesTokenLoad true "abc \n" ParseOutcome.threw = LoadResult.loaded "abc \n" ∧
    trimStr "abc \n" = "abc" ∧
    ("abc \n" : String) ≠ "abc" ∧
    listPagesTokenLoad true " " ParseOutcome.threw = LoadResult.loaded " " := by
  refine ⟨by decide, by decide, by decide, by decide⟩

/-- C4, amended: only the trimmed `listSections` loader behaves as claimed —
structured `{token: X}` yields `X` (trimmed), a bare non-JSON `Y` yields `Y`
trimmed, and a missing file or whitespace-only contents report the
credential missing.  The `list-pages.js`-family loaders return `X` for the
structured form and report missing on a nonexistent file, but return a bare
`Y` untrimmed and accept whitespace-only contents as a token. -/
theorem C4_loader_contract (x y c : String) (a : Option String) (p : ParseOutcome)
    (hx : ¬(x = "")) (hxt : trimStr x = x) (hy : ¬(trimStr y = "")) :
    listSectionsTokenLoad false c p = LoadResult.missing ∧
    listPagesTokenLoad false c p = LoadResult.missing ∧
    listSectionsTokenLoad true c (ParseOutcome.parsed (some x) a) = LoadResult.loaded x ∧
    listPagesTokenLoad true c (ParseOutcome.parsed (some x) a) = LoadResult.loaded x ∧
    listSectionsTokenLoad true y ParseOutcome.threw = LoadResult.loaded (trimStr y) ∧
    listPagesTokenLoad true y ParseOutcome.threw = LoadResult.loaded y ∧
    listSectionsTokenLoad true "  " ParseOutcome.threw = LoadResult.missing := by
  have hy2 : ¬(y = "") := by
    intro h
    rw [h] at hy
    exact hy (by decide)
  refine ⟨by simp [listSectionsTokenLoad], by simp [listPagesTokenLoad],
    ?_, ?_, ?_, ?_, by decide⟩
  · simp [listSectionsTokenLoad, jsOr, optTruthy, hx, hxt]
  · simp [listPagesTokenLoad, optTruthy, hx]
  · simp [listSectionsTokenLoad, hy]
  · simp [listPagesTokenLoad, optTruthy, hy2]

/-- C4, witness: the amended loader contract at the concrete file contents
"X" (structured token), " tok " (bare string), and a nonexistent file. -/
theorem C4_loader_contract_witness :
    listSectionsTokenLoad false "" ParseOutcome.threw = LoadResult.missing ∧
    listPagesTokenLoad false "" ParseOutcome.threw = LoadResult.missing ∧
    listSectionsTokenLoad true "" (ParseOutcome.parsed (some "X") none) = LoadResult.loaded "X" ∧
    listPagesTokenLoad true "" (ParseOutcome.parsed (some "X") none) = LoadResult.loaded "X" ∧
    listSectionsTokenLoad true " tok " ParseOutcome.threw = LoadResult.loaded (trimStr " tok ") ∧
    listPagesTokenLoad true " tok " ParseOutcome.threw = LoadResult.loaded " tok " ∧
    listSectionsTokenLoad true "  " ParseOutcome.threw = LoadResult.missing :=
  C4_loader_contract "X" " tok " "" none ParseOutcome.threw
    (by decide) (by decide) (by decide)

/-- C9: when `JSON.parse` of the credential file succeeds but yields no
usable token field — `.token` absent or empty for the `list-pages.js`-family
loaders and the `ensureGraphClient` reload (which even discards a previously
set in-memory token), and `.token`/`.access_token` both blank after trimming
for the tolerant `listSections` loader — the loader reports the credential
missing instead of falling back to the raw (non-empty) file contents. -/
theorem C9_no_fallback_on_parsed_json (content : String) (prior a tok atok : Option String)
    (h : trimStr ((jsOr tok atok).getD "") = "") :
    listPagesTokenLoad true content (ParseOutcome.parsed none a) = LoadResult.missing ∧
    listPagesTokenLoad true content (ParseOutcome.parsed (some "") a) = LoadResult.missing ∧
    ensureGraphTokenLoad prior true content (ParseOutcome.parsed none a) = LoadResult.missing ∧
    listSectionsTokenLoad true content (ParseOutcome.parsed tok atok) = LoadResult.missing := by
  refine ⟨by simp [listPagesTokenLoad, optTruthy], by simp [listPagesTokenLoad, optTruthy],
    by simp [ensureGraphTokenLoad, optTruthy], ?_⟩
  simp [listSectionsTokenLoad, h]

/-- C9, witness: a file whose contents parse as `{"access_token":"X"}` — a
JSON object without a usable `token` key for the strict loaders — is
reported missing by them (not treated as a raw token), even though the raw
contents are non-empty; and the tolerant loader reports missing when both
fields are absent. -/
theorem C9_no_fallback_witness :
    listPagesTokenLoad true "raw-bytes" (ParseOutcome.parsed none (some "X")) = LoadResult.missing ∧
    listPagesTokenLoad true "raw-bytes" (ParseOutcome.parsed (some "") (some "X")) = LoadResult.missing ∧
    ensureGraphTokenLoad (some "prior-token") true "raw-bytes" (ParseOutcome.parsed none (some "X")) = LoadResult.missing ∧
    listSectionsTokenLoad true "raw-bytes" (ParseOutcome.parsed none none) = LoadResult.missing :=
  C9_no_fallback_on_parsed_json "raw-bytes" (some "prior-token") (some "X") none none
    (by decide)

/-- A prefix of successful results is worked through without touching the
failure counter or the failure log: the loop continues on the rest from some
accumulator with `good.length` more attempts and unchanged failure data. -/
theorem runLoop_success_prefix (good : List ((String × String) × DlResult)) :
    ∀ (tail : List ((String × String) × DlResult)) (acc : RunTotals),
      (∀ x ∈ good, x.2.success = true) →
      ∃ acc2 : RunTotals,
        runLoopGo (good ++ tail) 0 acc = runLoopGo tail 0 acc2 ∧
        acc2.attempted = acc.attempted + good.length ∧
        acc2.totalFailed = acc.totalFailed ∧
        acc2.failedPages = acc.failedPages := by
  induction good with
  | nil =>
    intro tail acc _
    exact ⟨acc, rfl, by simp, rfl, rfl⟩
  | cons x gs ih =>
    intro tail acc h
    obtain ⟨en, r⟩ := x
    have hr : r.success = true := h _ (List.mem_cons_self _ _)
    have hgs : ∀ y ∈ gs, y.2.success = true := fun y hy => h y (List.mem_cons_of_mem _ hy)
    by_cases hs : r.skipped = true
    · obtain ⟨acc2, he, h1, h2, h3⟩ := ih tail
        { acc with attempted := acc.attempted + 1, totalSkipped := acc.totalSkipped + 1 } hgs
      refine ⟨acc2, ?_, ?_, h2, h3⟩
      · rw [List.cons_append]
        simp only [runLoopGo, hr, hs, if_true]
        exact he
      · simp only [h1]
        simp
        omega
    · obtain ⟨acc2, he, h1, h2, h3⟩ := ih tail
        { acc with attempted := acc.attempted + 1, totalSuccess := acc.totalSuccess + 1 } hgs
      refine ⟨acc2, ?_, ?_, h2, h3⟩
      · rw [List.cons_append]
        simp only [runLoopGo, hr, hs, if_true, if_false]
        simp only [Bool.not_eq_true] at hs
        simp [hs]
        exact he
      · simp only [h1]
        simp
        omega

/-- A run of failing results that brings the consecutive-failure counter from
`c` to the breaker threshold: the loop attempts exactly those entries (never
reaching anything after them), adding one failure and one log entry each. -/
theorem runLoop_failure_run (bad : List ((String × String) × DlResult)) :
    ∀ (rest : List ((String × String) × DlResult)) (c : Nat) (acc : RunTotals),
      (∀ x ∈ bad, x.2.success = false) → 0 < bad.length →
      c + bad.length = MAX_CONSECUTIVE_FAILURES →
      (runLoopGo (bad ++ rest) c acc).attempted = acc.attempted + bad.length ∧
      (runLoopGo (bad ++ rest) c acc).totalFailed = acc.totalFailed + bad.length ∧
      (runLoopGo (bad ++ rest) c acc).failedPages.length =
        acc.failedPages.length + bad.length := by
  induction bad with
  | nil =>
    intro rest c acc _ h0 _
    simp at h0
  | cons x bs ih =>
    intro rest c acc h h0 hlen
    obtain ⟨en, r⟩ := x
    have hr : r.success = false := h _ (List.mem_cons_self _ _)
    have hbs : ∀ y ∈ bs, y.2.success = false := fun y hy => h y (List.mem_cons_of_mem _ hy)
    have hlen10 : c + (bs.length + 1) = 10 := hlen
    cases bs with
    | nil =>
      have h10 : c + 1 = 10 := by simpa using hlen10
      have hc : MAX_CONSECUTIVE_FAILURES ≤ c + 1 := by
        unfold MAX_CONSECUTIVE_FAILURES
        omega
      rw [List.cons_append, List.nil_append]
      simp only [runLoopGo, hr, Bool.false_eq_true, if_false, hc, if_true]
      simp
    | cons b2 bs2 =>
      have h10 : c + (bs2.length + 2) = 10 := by simpa using hlen10
      have hc : ¬(MAX_CONSECUTIVE_FAILURES ≤ c + 1) := by
        unfold MAX_CONSECUTIVE_FAILURES
        omega
      have hlen2 : c + 1 + (b2 :: bs2).length = MAX_CONSECUTIVE_FAILURES := by
        show c + 1 + (bs2.length + 1) = MAX_CONSECUTIVE_FAILURES
        unfold MAX_CONSECUTIVE_FAILURES
        omega
      have hstep := ih rest (c + 1)
        { acc with attempted := acc.attempted + 1, totalFailed := acc.totalFailed + 1, failedPages := acc.failedPages ++ [(en.1, en.2, (r.error.getD "undefined"))] }
        hbs (by simp) hlen2
      rw [List.cons_append]
      simp only [runLoopGo, hr, Bool.false_eq_true, if_false, hc, if_true]
      refine ⟨hstep.1.trans ?_, hstep.2.1.trans ?_, hstep.2.2.trans ?_⟩
      · simp
        omega
      · simp
        omega
      · simp
        omega

/-- C8: in any driver run consisting of successfully handled records followed
by a block of exactly `MAX_CONSECUTIVE_FAILURES` (10) consecutive failures
and then arbitrary further manifest entries, the loop attempts exactly the
successes plus the 10 failures — the records after the 10th consecutive
failure are never attempted — and the accumulated totals report the 10
failures, the failure log holds one line per failure, and the log file is
emitted. -/
theorem C8_circuit_breaker (good bad rest : List ((String × String) × DlResult))
    (hg : ∀ x ∈ good, x.2.success = true)
    (hb : ∀ x ∈ bad, x.2.success = false)
    (hlen : bad.length = MAX_CONSECUTIVE_FAILURES) :
    (runDownloadLoop (good ++ bad ++ rest)).attempted =
        good.length + MAX_CONSECUTIVE_FAILURES ∧
    (runDownloadLoop (good ++ bad ++ rest)).totalFailed = MAX_CONSECUTIVE_FAILURES ∧
    (failureLogLines (runDownloadLoop (good ++ bad ++ rest))).length =
        MAX_CONSECUTIVE_FAILURES ∧
    failureLogEmitted (runDownloadLoop (good ++ bad ++ rest)) = true := by
  obtain ⟨acc2, he, h1, h2, h3⟩ :=
    runLoop_success_prefix good (bad ++ rest) {} hg
  have h0bad : 0 < bad.length := by
    rw [hlen]
    unfold MAX_CONSECUTIVE_FAILURES
    omega
  have hlen0 : 0 + bad.length = MAX_CONSECUTIVE_FAILURES := by
    rw [Nat.zero_add, hlen]
  obtain ⟨f1, f2, f3⟩ := runLoop_failure_run bad rest 0 acc2 hb h0bad hlen0
  have hrun : runDownloadLoop (good ++ bad ++ rest) = runLoopGo (bad ++ rest) 0 acc2 := by
    rw [runDownloadLoop, List.append_assoc]
    exact he
  have hfp : (runLoopGo (bad ++ rest) 0 acc2).failedPages.length =
      MAX_CONSECUTIVE_FAILURES := by
    rw [f3, h3]
    simpa using hlen
  refine ⟨?_, ?_, ?_, ?_⟩
  · rw [hrun, f1, h1, hlen]
    simp
  · rw [hrun, f2, h2, hlen]
    simp
  · rw [failureLogLines, List.length_map, hrun]
    exact hfp
  · rw [failureLogEmitted, hrun]
    cases hfl : (runLoopGo (bad ++ rest) 0 acc2).failedPages with
    | nil =>
      rw [hfl] at hfp
      simp at hfp
      exact absurd hfp.symm (by unfold MAX_CONSECUTIVE_FAILURES; omega)
    | cons q qs => simp [hfl]

/-- C8, witness: with 12 consecutive failing records and threshold 10, the
driver attempts exactly 10, records 10 failures and 10 failure-log lines,
and emits the failure log — the 11th and 12th records are never attempted. -/
theorem C8_circuit_breaker_witness :
    (runDownloadLoop (List.replicate 10 (("title", "id"), ({ success := false, error := some "HTTP error" } : DlResult)) ++ List.replicate 2 (("title", "id"), ({ success := false, error := some "HTTP error" } : DlResult)))).attempted = 10 ∧
    (runDownloadLoop (List.replicate 10 (("title", "id"), ({ success := false, error := some "HTTP error" } : DlResult)) ++ List.replicate 2 (("title", "id"), ({ success := false, error := some "HTTP error" } : DlResult)))).totalFailed = 10 ∧
    (failureLogLines (runDownloadLoop (List.replicate 10 (("title", "id"), ({ success := false, error := some "HTTP error" } : DlResult)) ++ List.replicate 2 (("title", "id"), ({ success := false, error := some "HTTP error" } : DlResult))))).length = 10 ∧
    failureLogEmitted (runDownloadLoop (List.replicate 10 (("title", "id"), ({ success := false, error := some "HTTP error" } : DlResult)) ++ List.replicate 2 (("title", "id"), ({ success := false, error := some "HTTP error" } : DlResult)))) = true := by
  have h := C8_circuit_breaker []
    (List.replicate 10 (("title", "id"), ({ success := false, error := some "HTTP error" } : DlResult)))
    (List.replicate 2 (("title", "id"), ({ success := false, error := some "HTTP error" } : DlResult)))
    (by decide) (by decide) (by decide)
  simpa using h

end OneNoteMcp
